import Mathlib

/-!
Shallow embedding of the lead-qualification scoring engine in `src/main.py`
(`normalize_monthly_bill`, the `map_*` normalizers, and `apply_scoring`).

Conventions of the embedding:
* Python `Optional[T]` fields become `Option` fields; Python truthiness of an
  optional string (`if lead.roof_type:`) is `none`-or-empty falsy.
* Python `float` values are modelled as `ℚ`.  The built-in `float(str)`
  parser is modelled by `pyFloat?` on plain decimal and scientific-notation
  literals (sign, digits, optional decimal point, optional `e`/`E` exponent);
  Python's `inf`/`nan`/underscore forms are outside the inputs considered.
  All rational values reachable in the engine make the same threshold
  comparisons as the corresponding IEEE doubles (checked exhaustively over
  the reachable sub-score values), so `ℚ` is extensionally faithful here.
* `normalize_monthly_bill` mutates its argument in Python; it is embedded as
  a state-passing function `LeadInput → LeadInput`, and `apply_scoring`
  returns the post-call state of the lead next to the score.
* The Python `try`/`except ValueError` around the bill parse is embedded
  twice: once as the total function `normalize_monthly_bill`, and once as
  `normalize_monthly_billE` in the `Except` monad where `float` and list
  indexing can raise, to state that no exception escapes.
-/

/-- First list is a prefix of the second. -/
def isPrefixOfList : List Char → List Char → Bool
  | [], _ => true
  | _ :: _, [] => false
  | a :: as, b :: bs => a = b && isPrefixOfList as bs

/-- The needle occurs as a contiguous sublist of the haystack. -/
def hasSubList : List Char → List Char → Bool
  | [], needle => needle.isEmpty
  | hay@(_ :: t), needle => isPrefixOfList needle hay || hasSubList t needle

/-- Python substring test: `needle in hay`. -/
def pyIn (needle hay : String) : Bool :=
  hasSubList hay.toList needle.toList

/-- Python `str.startswith`. -/
def pyStartsWith (s pre : String) : Bool :=
  isPrefixOfList pre.toList s.toList

/-- Python `str.lower()` (ASCII case folding, which covers every label the
engine compares against). -/
def pyLower (s : String) : String :=
  ⟨s.toList.map Char.toLower⟩

/-- Python truthiness of an optional string: `None` and `""` are falsy. -/
def pyTruthy : Option String → Bool
  | none => false
  | some s => s != ""

/-- All characters are ASCII decimal digits. -/
def allDigits (l : List Char) : Bool :=
  l.all Char.isDigit

/-- Value of a list of decimal digit characters, most significant first. -/
def digitsVal (l : List Char) : Nat :=
  l.foldl (fun a c => 10 * a + (c.toNat - 48)) 0

/-- Strip one optional leading sign; `true` means negative. -/
def signSplit : List Char → Bool × List Char
  | '-' :: t => (true, t)
  | '+' :: t => (false, t)
  | t => (false, t)

/-- Mantissa of a decimal literal: `digits`, `digits.digits`, `digits.`
or `.digits` (at least one digit overall). -/
def decMant? (cs : List Char) : Option ℚ :=
  match cs.splitOn '.' with
  | [intp] =>
    if intp ≠ [] ∧ allDigits intp then some (digitsVal intp) else none
  | [intp, frac] =>
    if (intp ≠ [] ∨ frac ≠ []) ∧ allDigits intp ∧ allDigits frac then
      some ((digitsVal intp : ℚ) + (digitsVal frac : ℚ) / ((10 : ℚ) ^ frac.length))
    else none
  | _ => none

/-- Model of Python's built-in `float(str)` on plain decimal and
scientific-notation literals, returning `none` where Python raises
`ValueError`. -/
def pyFloat? (s : String) : Option ℚ :=
  let (neg, body) := signSplit s.toList
  let mant := body.takeWhile (fun c => !(c == 'e' || c == 'E'))
  let expTail := body.dropWhile (fun c => !(c == 'e' || c == 'E'))
  let signed : ℚ → ℚ := fun q => if neg then -q else q
  match expTail with
  | [] => (decMant? mant).map signed
  | _ :: expRest =>
    let (eneg, edigits) := signSplit expRest
    if edigits ≠ [] ∧ allDigits edigits then
      (decMant? mant).map fun m =>
        signed (if eneg then m / ((10 : ℚ) ^ digitsVal edigits)
                else m * ((10 : ℚ) ^ digitsVal edigits))
    else none

/-- Python `str.split(sep)` for a single-character separator, on the
character list. -/
def splitChar (sep : Char) : List Char → List (List Char)
  | [] => [[]]
  | c :: t =>
    if c = sep then [] :: splitChar sep t
    else
      match splitChar sep t with
      | [] => [[c]]
      | h :: r => (c :: h) :: r

/-- The input record (`LeadInput` in `src/main.py`); every field optional,
with the pydantic defaults for `is_landlord` and `property_count`. -/
structure LeadInput where
  name : Option String := none
  email : Option String := none
  phone : Option String := none
  address : Option String := none
  city : Option String := none
  state : Option String := none
  zip : Option String := none
  source : Option String := none
  property_type : Option String := none
  is_landlord : Option Bool := some false
  property_count : Option Int := some 0
  roof_type : Option String := none
  roof_age_years : Option Int := none
  shading_level : Option String := none
  hoa_allows_solar : Option String := none
  distance_minutes : Option Int := none
  monthly_bill_raw : Option String := none
  monthly_bill : Option ℚ := none
  true_up_band : Option String := none
  credit_band : Option String := none
  motivation : Option String := none
  decision_style : Option String := none
deriving Repr, DecidableEq

/-- The output record (`LeadScore` in `src/main.py`). -/
structure LeadScore where
  property_score : Int
  financial_score : Int
  behavioral_score : Int
  landlord_score : Int
  ai_tier : String
  buyer_type : String
  pain_points : List String
  reject_reasons : List String
deriving Repr, DecidableEq

/-- The cleaning pass of `normalize_monthly_bill`:
`raw.replace("$", "").replace(" ", "").replace("–", "-")`. -/
def cleanBill (rawStr : String) : List Char :=
  (((rawStr.toList.filter (fun c => !(c == '$'))).filter
      (fun c => !(c == ' '))).map (fun c => if c == '–' then '-' else c))

/-- The range branch of `normalize_monthly_bill` on the cleaned string: if
it contains a hyphen, split on it and parse `parts[0]` and `parts[1]`; the
mean when both parse, nothing when either fails (the caught `ValueError`). -/
def billRange? (raw : List Char) : Option ℚ :=
  if '-' ∈ raw then
    match pyFloat? ⟨(splitChar '-' raw).getD 0 []⟩,
        pyFloat? ⟨(splitChar '-' raw).getD 1 []⟩ with
    | some low, some high => some ((low + high) / 2)
    | _, _ => none
  else none

/-- The value `normalize_monthly_bill` would parse from a raw bill string:
the range branch if it succeeds, otherwise the single-value branch,
otherwise nothing. -/
def parsedBill (rawStr : String) : Option ℚ :=
  match billRange? (cleanBill rawStr) with
  | some v => some v
  | none => pyFloat? ⟨cleanBill rawStr⟩

/-- Embedding of `normalize_monthly_bill` (which mutates `lead` in Python)
as a state-passing function. -/
def normalize_monthly_bill (lead : LeadInput) : LeadInput :=
  if lead.monthly_bill.isSome then lead
  else if !pyTruthy lead.monthly_bill_raw then lead
  else
    match parsedBill (lead.monthly_bill_raw.getD "") with
    | some v => { lead with monthly_bill := some v }
    | none => lead

/-- Embedding of `map_shading_to_code`. -/
def map_shading_to_code (shading_level : Option String) : Option String :=
  if !pyTruthy shading_level then none
  else
    let s := pyLower (shading_level.getD "")
    if pyIn "full" s then some "full_sun"
    else if pyIn "mostly" s then some "mostly_sunny"
    else if pyIn "partial" s then some "partial_shade"
    else if pyIn "heavy" s then some "heavy_shade"
    else some "unknown"

/-- Embedding of `map_hoa_to_bool`. -/
def map_hoa_to_bool (hoa : Option String) : Option Bool :=
  if !pyTruthy hoa then none
  else
    let s := pyLower (hoa.getD "")
    if pyIn "no hoa" s then some true
    else if pyIn "allow" s then some true
    else if pyIn "restriction" s then some false
    else none

/-- Embedding of `map_credit_band`. -/
def map_credit_band (credit_band : Option String) : String :=
  if !pyTruthy credit_band then "Unknown" else credit_band.getD ""

/-- Embedding of `map_true_up_band`. -/
def map_true_up_band (true_up_band : Option String) : String :=
  if !pyTruthy true_up_band then "Unknown" else true_up_band.getD ""

/-- Embedding of `normalize_decision_style`. -/
def normalize_decision_style (style : Option String) : String :=
  if !pyTruthy style then "Unknown" else style.getD ""

/-- Embedding of `normalize_motivation`. -/
def normalize_motivation (m : Option String) : String :=
  if !pyTruthy m then "Other/Unknown" else m.getD ""

/-- Hard disqualification: distance strictly over 90 minutes. -/
def distReject (lead : LeadInput) : Bool :=
  match lead.distance_minutes with
  | some d => d > 90
  | none => false

/-- Hard disqualification: roof type text containing both substrings. -/
def woodShakeReject (lead : LeadInput) : Bool :=
  pyTruthy lead.roof_type &&
    (let rt := pyLower (lead.roof_type.getD "")
     pyIn "wood" rt && pyIn "shake" rt)

/-- Hard disqualification: normalized monthly bill present and under 150. -/
def lowBillReject (lead : LeadInput) : Bool :=
  match lead.monthly_bill with
  | some b => b < 150
  | none => false

/-- Hard disqualification: roof age present and at least 15. -/
def roofAgeReject (lead : LeadInput) : Bool :=
  match lead.roof_age_years with
  | some a => a ≥ 15
  | none => false

/-- Hard disqualification: credit band text starting with "under 650",
case-insensitively. -/
def creditReject (cb : String) : Bool :=
  pyStartsWith (pyLower cb) "under 650"

/-- The reject-reason list built by the hard-disqualification section of
`apply_scoring`, in source order. -/
def rejectReasonsOf (lead : LeadInput) (shading_code : Option String)
    (hoa_ok : Option Bool) (cb : String) : List String :=
  (if distReject lead then ["Outside 90-minute radius"] else []) ++
  (if woodShakeReject lead then ["Wood shake roof"] else []) ++
  (if shading_code = some "heavy_shade" then ["Excessive shading"] else []) ++
  (if lowBillReject lead then ["Monthly bill under $150"] else []) ++
  (if hoa_ok = some false then ["HOA does not allow solar"] else []) ++
  (if roofAgeReject lead then ["Roof likely needs replacement within 5 years"] else []) ++
  (if creditReject cb then ["Credit score below 650"] else [])

/-- The clamp `max(0, min(s, 100))` applied to every graduated sub-score. -/
def clamp01 (n : Int) : Int :=
  max 0 (min n 100)

/-- Roof-material contribution to the property score. -/
def roofMaterialAdj (roof_type : Option String) : Int :=
  if pyTruthy roof_type then
    let rt := pyLower (roof_type.getD "")
    if pyIn "asphalt" rt || pyIn "composition" rt then 25
    else if pyIn "tile" rt || pyIn "metal" rt || pyIn "flat" rt then 15
    else 0
  else 0

/-- Roof-age contribution to the property score. -/
def roofAgeAdj : Option Int → Int
  | none => 0
  | some a => if a ≤ 5 then 20 else if a ≤ 10 then 10 else 0

/-- Shading contribution to the property score. -/
def shadingAdj (shading_code : Option String) : Int :=
  if shading_code = some "full_sun" then 15
  else if shading_code = some "mostly_sunny" then 10
  else 0

/-- Property score: base 50 plus the three adjustments, clamped. -/
def propertyScoreOf (roof_type : Option String) (roof_age_years : Option Int)
    (shading_code : Option String) : Int :=
  clamp01 (50 + roofMaterialAdj roof_type + roofAgeAdj roof_age_years +
    shadingAdj shading_code)

/-- Monthly-bill contribution to the financial score. -/
def billAdj : Option ℚ → Int
  | none => 0
  | some b => if b ≥ 400 then 30 else if b ≥ 200 then 20 else if b ≥ 150 then 10 else 0

/-- True-up-band contribution to the financial score (argument already
lowercased, as in the source). -/
def tubAdj (tub : String) : Int :=
  if pyIn "500+" tub then 20
  else if pyIn "under 500" tub then 10
  else 0

/-- Credit-band contribution to the financial score (argument in original
case, as in the source). -/
def cbAdj (cb : String) : Int :=
  if pyStartsWith (pyLower cb) "720" then 20
  else if pyIn "650–719" cb || pyIn "650-719" cb then 10
  else 0

/-- Financial score: base 40 plus the three adjustments, clamped. -/
def financialScoreOf (monthly_bill : Option ℚ) (tub cb : String) : Int :=
  clamp01 (40 + billAdj monthly_bill + tubAdj tub + cbAdj cb)

/-- Decision-style chain: behavioral adjustment and buyer type (argument
already lowercased, as in the source). -/
def styleAdjBuyer (s : String) : Int × String :=
  if pyIn "research" s || pyIn "quality" s then (25, "Quality Focused")
  else if pyIn "trust" s && pyIn "expert" s then (20, "Trusts Experts")
  else if pyIn "price" s then (-10, "Price Shopper")
  else if pyIn "deal" s then (-5, "Discount Seeker")
  else (0, "Unknown")

/-- Behavioral score: base 50 plus the decision-style adjustment, clamped. -/
def behavioralScoreOf (decision_style : Option String) : Int :=
  clamp01 (50 + (styleAdjBuyer (pyLower (normalize_decision_style decision_style))).1)

/-- Buyer type produced by the decision-style chain. -/
def buyerTypeOf (decision_style : Option String) : String :=
  (styleAdjBuyer (pyLower (normalize_decision_style decision_style))).2

/-- Pain-point tags derived from the lowercased motivation text, in source
order. -/
def painPointsOf (mot : String) : List String :=
  (if pyIn "saving" mot then ["high_bills"] else []) ++
  (if pyIn "environment" mot then ["environmental_impact"] else []) ++
  (if pyIn "independence" mot || pyIn "backup" mot then ["grid_dependence"] else []) ++
  (if pyIn "quality" mot then ["quality_equipment"] else [])

/-- Landlord score: 0 unless flagged landlord, else base 60 escalated by
truthy property count. -/
def landlordScoreOf (is_landlord : Option Bool) (property_count : Option Int) : Int :=
  if is_landlord = some true then
    match property_count with
    | some n =>
      if n ≠ 0 then
        if n ≥ 10 then 100 else if n ≥ 6 then 85 else if n ≥ 3 then 75 else 60
      else 60
    | none => 60
  else 0

/-- The weighted composite of `apply_scoring`:
`0.4*property + 0.35*financial + 0.25*behavioral + (15 if landlord ≥ 75)`. -/
def totalWeighted (p f b l : Int) : ℚ :=
  (p : ℚ) * 0.4 + (f : ℚ) * 0.35 + (b : ℚ) * 0.25 +
    (if l ≥ 75 then 15 else 0)

/-- Threshold mapping from the weighted composite to the tier string. -/
def tierOfTotal (t : ℚ) : String :=
  if t ≥ 90 then "HOT"
  else if t ≥ 75 then "QUALIFIED"
  else if t ≥ 60 then "NURTURE"
  else "REJECT"

/-- The fixed-placeholder `LeadScore` returned when any hard
disqualification fired. -/
def rejectScore (reject_reasons : List String) : LeadScore :=
  { property_score := 20, financial_score := 20, behavioral_score := 40,
    landlord_score := 0, ai_tier := "REJECT", buyer_type := "Unknown",
    pain_points := [], reject_reasons := reject_reasons }

/-- The graduated `LeadScore` returned when no hard disqualification fired
(`reject_reasons` is the — then empty — list the source passes through). -/
def graduatedScore (lead : LeadInput) (reject_reasons : List String) : LeadScore :=
  let shading_code := map_shading_to_code lead.shading_level
  let cb := map_credit_band lead.credit_band
  let tub := pyLower (map_true_up_band lead.true_up_band)
  let property_score := propertyScoreOf lead.roof_type lead.roof_age_years shading_code
  let financial_score := financialScoreOf lead.monthly_bill tub cb
  let behavioral_score := behavioralScoreOf lead.decision_style
  let landlord_score := landlordScoreOf lead.is_landlord lead.property_count
  { property_score := property_score, financial_score := financial_score,
    behavioral_score := behavioral_score, landlord_score := landlord_score,
    ai_tier := tierOfTotal (totalWeighted property_score financial_score
      behavioral_score landlord_score),
    buyer_type := buyerTypeOf lead.decision_style,
    pain_points := painPointsOf (pyLower (normalize_motivation lead.motivation)),
    reject_reasons := reject_reasons }

/-- Body of `apply_scoring` after the in-place bill normalization has been
performed on `lead`. -/
def scoreNormalized (lead : LeadInput) : LeadInput × LeadScore :=
  let reject_reasons := rejectReasonsOf lead (map_shading_to_code lead.shading_level)
      (map_hoa_to_bool lead.hoa_allows_solar) (map_credit_band lead.credit_band)
  if reject_reasons ≠ [] then (lead, rejectScore reject_reasons)
  else (lead, graduatedScore lead reject_reasons)

/-- Embedding of `apply_scoring`; the first component is the post-call state
of the (mutated-in-Python) input record. -/
def apply_scoring (lead0 : LeadInput) : LeadInput × LeadScore :=
  scoreNormalized (normalize_monthly_bill lead0)

/-- Model of Python `float(str)` as a fallible computation raising
`ValueError`. -/
def pyFloatE (s : String) : Except String ℚ :=
  match pyFloat? s with
  | some v => .ok v
  | none => .error "ValueError"

/-- Model of Python list indexing `l[i]` raising `IndexError` when out of
range. -/
def listGetE (l : List (List Char)) (i : Nat) : Except String (List Char) :=
  match l.get? i with
  | some x => .ok x
  | none => .error "IndexError"

/-- Exception-aware range branch: `parts[0]` and `parts[1]` may raise
`IndexError` (not caught by the source's `except ValueError`), `float` may
raise `ValueError` (caught, yielding fallthrough `none`). -/
def billRangeE (raw : List Char) : Except String (Option ℚ) :=
  if '-' ∈ raw then
    match (do
      let p0 ← listGetE (splitChar '-' raw) 0
      let p1 ← listGetE (splitChar '-' raw) 1
      let low ← pyFloatE ⟨p0⟩
      let high ← pyFloatE ⟨p1⟩
      pure ((low + high) / 2) : Except String ℚ) with
    | .ok v => .ok (some v)
    | .error e => if e = "ValueError" then .ok none else .error e
  else .ok none

/-- Exception-aware bill parse: the range branch, then the single-value
branch with its own `except ValueError`. -/
def parsedBillE (rawStr : String) : Except String (Option ℚ) :=
  match billRangeE (cleanBill rawStr) with
  | .error e => .error e
  | .ok (some v) => .ok (some v)
  | .ok none =>
    match pyFloatE ⟨cleanBill rawStr⟩ with
    | .ok v => .ok (some v)
    | .error e => if e = "ValueError" then .ok none else .error e

/-- Exception-aware embedding of `normalize_monthly_bill`. -/
def normalize_monthly_billE (lead : LeadInput) : Except String LeadInput :=
  if lead.monthly_bill.isSome then .ok lead
  else if !pyTruthy lead.monthly_bill_raw then .ok lead
  else
    match parsedBillE (lead.monthly_bill_raw.getD "") with
    | .ok (some v) => .ok { lead with monthly_bill := some v }
    | .ok none => .ok lead
    | .error e => .error e

/-- Exception-aware embedding of `apply_scoring` (the scoring sections after
normalization perform no fallible operation). -/
def apply_scoringE (lead0 : LeadInput) : Except String (LeadInput × LeadScore) :=
  match normalize_monthly_billE lead0 with
  | .ok lead => .ok (scoreNormalized lead)
  | .error e => .error e

/-! Supporting lemmas. -/

theorem mem_if_singleton {p : Prop} [Decidable p] {a b : String} :
    (a ∈ if p then [b] else []) ↔ p ∧ a = b := by
  by_cases h : p <;> simp [h]

theorem normalize_cases (lead : LeadInput) :
    normalize_monthly_bill lead = lead ∨
    ∃ v, lead.monthly_bill = none ∧
      normalize_monthly_bill lead = { lead with monthly_bill := some v } := by
  unfold normalize_monthly_bill
  split
  · exact Or.inl rfl
  · split
    · exact Or.inl rfl
    · rename_i h1 h2
      cases hp : parsedBill (lead.monthly_bill_raw.getD "") with
      | none => exact Or.inl rfl
      | some v =>
        refine Or.inr ⟨v, ?_, rfl⟩
        cases hmb : lead.monthly_bill with
        | none => rfl
        | some w => exact absurd (by simp [hmb]) h1

theorem normalize_eq_update (lead : LeadInput) :
    normalize_monthly_bill lead =
      { lead with monthly_bill := (normalize_monthly_bill lead).monthly_bill } := by
  rcases normalize_cases lead with h | ⟨v, _, h⟩ <;> rw [h]

theorem normalize_roof_type (lead : LeadInput) :
    (normalize_monthly_bill lead).roof_type = lead.roof_type := by
  rw [normalize_eq_update]

theorem normalize_roof_age (lead : LeadInput) :
    (normalize_monthly_bill lead).roof_age_years = lead.roof_age_years := by
  rw [normalize_eq_update]

theorem normalize_shading (lead : LeadInput) :
    (normalize_monthly_bill lead).shading_level = lead.shading_level := by
  rw [normalize_eq_update]

theorem normalize_hoa (lead : LeadInput) :
    (normalize_monthly_bill lead).hoa_allows_solar = lead.hoa_allows_solar := by
  rw [normalize_eq_update]

theorem normalize_distance (lead : LeadInput) :
    (normalize_monthly_bill lead).distance_minutes = lead.distance_minutes := by
  rw [normalize_eq_update]

theorem normalize_credit_band (lead : LeadInput) :
    (normalize_monthly_bill lead).credit_band = lead.credit_band := by
  rw [normalize_eq_update]

theorem normalize_true_up (lead : LeadInput) :
    (normalize_monthly_bill lead).true_up_band = lead.true_up_band := by
  rw [normalize_eq_update]

theorem normalize_decision (lead : LeadInput) :
    (normalize_monthly_bill lead).decision_style = lead.decision_style := by
  rw [normalize_eq_update]

theorem normalize_motivation_field (lead : LeadInput) :
    (normalize_monthly_bill lead).motivation = lead.motivation := by
  rw [normalize_eq_update]

theorem normalize_is_landlord (lead : LeadInput) :
    (normalize_monthly_bill lead).is_landlord = lead.is_landlord := by
  rw [normalize_eq_update]

theorem normalize_property_count (lead : LeadInput) :
    (normalize_monthly_bill lead).property_count = lead.property_count := by
  rw [normalize_eq_update]

theorem normalize_bill_of_isSome (lead : LeadInput)
    (h : lead.monthly_bill.isSome) :
    (normalize_monthly_bill lead).monthly_bill = lead.monthly_bill := by
  unfold normalize_monthly_bill
  rw [if_pos h]

theorem normalize_id_of_normalized (lead : LeadInput)
    (h : ∀ s, lead.monthly_bill_raw = some s → lead.monthly_bill.isSome) :
    normalize_monthly_bill lead = lead := by
  unfold normalize_monthly_bill
  split
  · rfl
  · split
    · rfl
    · rename_i h1 h2
      exfalso
      cases hraw : lead.monthly_bill_raw with
      | none => rw [hraw] at h2; simp [pyTruthy] at h2
      | some s => exact h1 (h s hraw)

theorem scoreNormalized_fst (lead : LeadInput) : (scoreNormalized lead).1 = lead := by
  unfold scoreNormalized
  dsimp only
  split <;> rfl

theorem scoreNormalized_rr (lead : LeadInput) :
    (scoreNormalized lead).2.reject_reasons =
      rejectReasonsOf lead (map_shading_to_code lead.shading_level)
        (map_hoa_to_bool lead.hoa_allows_solar) (map_credit_band lead.credit_band) := by
  unfold scoreNormalized
  dsimp only
  split <;> rfl

theorem applyScoring_fst (lead : LeadInput) :
    (apply_scoring lead).1 = normalize_monthly_bill lead := by
  unfold apply_scoring
  exact scoreNormalized_fst _

theorem applyScoring_rr (lead : LeadInput) :
    (apply_scoring lead).2.reject_reasons =
      rejectReasonsOf (normalize_monthly_bill lead)
        (map_shading_to_code lead.shading_level)
        (map_hoa_to_bool lead.hoa_allows_solar)
        (map_credit_band lead.credit_band) := by
  unfold apply_scoring
  rw [scoreNormalized_rr]
  rw [normalize_shading, normalize_hoa, normalize_credit_band]

theorem splitChar_length_pos (sep : Char) (cs : List Char) :
    0 < (splitChar sep cs).length := by
  induction cs with
  | nil => simp [splitChar]
  | cons c t ih =>
    unfold splitChar
    split
    · simp
    · cases h : splitChar sep t with
      | nil => rw [h] at ih; simp at ih
      | cons hd r => simp

theorem splitChar_length_ge_two (sep : Char) (cs : List Char)
    (h : sep ∈ cs) : 2 ≤ (splitChar sep cs).length := by
  induction cs with
  | nil => simp at h
  | cons c t ih =>
    unfold splitChar
    split
    · have := splitChar_length_pos sep t
      simp
      omega
    · rename_i hne
      have ht : sep ∈ t := by
        rcases List.mem_cons.mp h with h1 | h1
        · exact absurd h1.symm hne
        · exact h1
      have h2 := ih ht
      cases hs : splitChar sep t with
      | nil => rw [hs] at h2; simp at h2
      | cons hd r =>
        rw [hs] at h2
        simp at h2 ⊢
        omega

theorem exists_cons_cons_of_two_le {α : Type} {l : List α} (h : 2 ≤ l.length) :
    ∃ a b t, l = a :: b :: t := by
  cases l with
  | nil => simp at h
  | cons a l' =>
    cases l' with
    | nil => simp at h
    | cons b t => exact ⟨a, b, t, rfl⟩

theorem billRangeE_ok (raw : List Char) : billRangeE raw = .ok (billRange? raw) := by
  unfold billRangeE billRange?
  by_cases hc : '-' ∈ raw
  · rw [if_pos hc, if_pos hc]
    obtain ⟨p0, p1, rest, hp⟩ :=
      exists_cons_cons_of_two_le (splitChar_length_ge_two '-' raw hc)
    rw [hp]
    cases h0 : pyFloat? ⟨p0⟩ <;> cases h1 : pyFloat? ⟨p1⟩ <;>
      simp [listGetE, pyFloatE, h0, h1, Bind.bind, Except.bind, Pure.pure, Except.pure]
  · rw [if_neg hc, if_neg hc]

theorem parsedBillE_ok (s : String) : parsedBillE s = .ok (parsedBill s) := by
  unfold parsedBillE parsedBill
  rw [billRangeE_ok]
  cases hr : billRange? (cleanBill s) with
  | some v => rfl
  | none =>
    cases hf : pyFloat? ⟨cleanBill s⟩ <;> simp [pyFloatE, hf]

theorem normalizeE_ok (lead : LeadInput) :
    normalize_monthly_billE lead = .ok (normalize_monthly_bill lead) := by
  unfold normalize_monthly_billE normalize_monthly_bill
  split
  · rfl
  · split
    · rfl
    · rw [parsedBillE_ok]
      cases hp : parsedBill (lead.monthly_bill_raw.getD "") <;> rfl

theorem clamp01_bounds (n : Int) : 0 ≤ clamp01 n ∧ clamp01 n ≤ 100 := by
  unfold clamp01
  constructor
  · exact le_max_left 0 _
  · exact max_le (by norm_num) (min_le_right n 100)

theorem landlordScoreOf_bounds (a : Option Bool) (b : Option Int) :
    0 ≤ landlordScoreOf a b ∧ landlordScoreOf a b ≤ 100 := by
  unfold landlordScoreOf
  split
  · split
    · split
      · split_ifs <;> omega
      · omega
    · omega
  · omega

theorem tierOfTotal_mem (t : ℚ) :
    tierOfTotal t = "HOT" ∨ tierOfTotal t = "QUALIFIED" ∨
    tierOfTotal t = "NURTURE" ∨ tierOfTotal t = "REJECT" := by
  unfold tierOfTotal
  split_ifs <;> simp

theorem applyScoring_snd_cases (lead : LeadInput) :
    ((apply_scoring lead).2.reject_reasons ≠ [] ∧
      (apply_scoring lead).2 = rejectScore ((apply_scoring lead).2.reject_reasons)) ∨
    ((apply_scoring lead).2.reject_reasons = [] ∧
      (apply_scoring lead).2 = graduatedScore (normalize_monthly_bill lead) []) := by
  unfold apply_scoring scoreNormalized
  dsimp only
  split
  · rename_i h
    exact Or.inl ⟨h, rfl⟩
  · rename_i h
    have h' := not_not.mp h
    rw [h']
    exact Or.inr ⟨rfl, rfl⟩

theorem mem_rr_iff (l : LeadInput) (sc : Option String) (hoa : Option Bool)
    (cb : String) (r : String) :
    r ∈ rejectReasonsOf l sc hoa cb ↔
      (distReject l = true ∧ r = "Outside 90-minute radius") ∨
      (woodShakeReject l = true ∧ r = "Wood shake roof") ∨
      (sc = some "heavy_shade" ∧ r = "Excessive shading") ∨
      (lowBillReject l = true ∧ r = "Monthly bill under $150") ∨
      (hoa = some false ∧ r = "HOA does not allow solar") ∨
      (roofAgeReject l = true ∧ r = "Roof likely needs replacement within 5 years") ∨
      (creditReject cb = true ∧ r = "Credit score below 650") := by
  simp only [rejectReasonsOf, List.mem_append, mem_if_singleton, or_assoc]

theorem distReject_iff (l : LeadInput) :
    distReject l = true ↔ ∃ d, l.distance_minutes = some d ∧ d > 90 := by
  unfold distReject
  cases h : l.distance_minutes <;> simp

theorem lowBillReject_iff (l : LeadInput) :
    lowBillReject l = true ↔ ∃ b, l.monthly_bill = some b ∧ b < 150 := by
  unfold lowBillReject
  cases h : l.monthly_bill <;> simp

theorem roofAgeReject_iff (l : LeadInput) :
    roofAgeReject l = true ↔ ∃ a, l.roof_age_years = some a ∧ a ≥ 15 := by
  unfold roofAgeReject
  cases h : l.roof_age_years <;> simp

theorem woodShakeReject_iff (l : LeadInput) :
    woodShakeReject l = true ↔
      pyTruthy l.roof_type = true ∧
      pyIn "wood" (pyLower (l.roof_type.getD "")) = true ∧
      pyIn "shake" (pyLower (l.roof_type.getD "")) = true := by
  unfold woodShakeReject
  simp [Bool.and_eq_true, and_assoc]

/-! Claim theorems. -/

/-- C1: for every input lead, a non-empty `reject_reasons` forces tier
REJECT with the fixed placeholder sub-scores (20, 20, 40, 0), and an empty
`reject_reasons` yields exactly the graduated sub-score computation: the
two output paths are mutually exclusive. -/
theorem C1_reject_placeholder_invariant (lead : LeadInput) :
    ((apply_scoring lead).2.reject_reasons ≠ [] →
      (apply_scoring lead).2.ai_tier = "REJECT" ∧
      (apply_scoring lead).2.property_score = 20 ∧
      (apply_scoring lead).2.financial_score = 20 ∧
      (apply_scoring lead).2.behavioral_score = 40 ∧
      (apply_scoring lead).2.landlord_score = 0) ∧
    ((apply_scoring lead).2.reject_reasons = [] →
      (apply_scoring lead).2.property_score =
        propertyScoreOf lead.roof_type lead.roof_age_years
          (map_shading_to_code lead.shading_level) ∧
      (apply_scoring lead).2.financial_score =
        financialScoreOf (normalize_monthly_bill lead).monthly_bill
          (pyLower (map_true_up_band lead.true_up_band))
          (map_credit_band lead.credit_band) ∧
      (apply_scoring lead).2.behavioral_score = behavioralScoreOf lead.decision_style ∧
      (apply_scoring lead).2.landlord_score =
        landlordScoreOf lead.is_landlord lead.property_count) := by
  unfold apply_scoring scoreNormalized
  dsimp only
  split
  · rename_i hne
    exact ⟨fun _ => ⟨rfl, rfl, rfl, rfl, rfl⟩, fun h => absurd h hne⟩
  · rename_i hempty
    constructor
    · intro h
      exact absurd h hempty
    · intro _
      refine ⟨?_, ?_, ?_, ?_⟩
      · simp only [graduatedScore, normalize_roof_type, normalize_roof_age, normalize_shading]
      · simp only [graduatedScore, normalize_true_up, normalize_credit_band]
      · simp only [graduatedScore, normalize_decision]
      · simp only [graduatedScore, normalize_is_landlord, normalize_property_count]

/-- C1 witness at a concrete rejected lead. -/
theorem C1_reject_placeholder_invariant_witness :
    (apply_scoring { distance_minutes := some 100 }).2.reject_reasons ≠ [] ∧
    (apply_scoring { distance_minutes := some 100 }).2.ai_tier = "REJECT" ∧
    (apply_scoring { distance_minutes := some 100 }).2.property_score = 20 ∧
    (apply_scoring { distance_minutes := some 100 }).2.financial_score = 20 ∧
    (apply_scoring { distance_minutes := some 100 }).2.behavioral_score = 40 ∧
    (apply_scoring { distance_minutes := some 100 }).2.landlord_score = 0 :=
  ⟨by decide,
   (C1_reject_placeholder_invariant { distance_minutes := some 100 }).1 (by decide)⟩

/-- C3: every sub-score lies in [0, 100] and the tier is one of the four
tier strings, for every input. -/
theorem C3_bounds_and_tier (lead : LeadInput) :
    (0 ≤ (apply_scoring lead).2.property_score ∧ (apply_scoring lead).2.property_score ≤ 100) ∧
    (0 ≤ (apply_scoring lead).2.financial_score ∧ (apply_scoring lead).2.financial_score ≤ 100) ∧
    (0 ≤ (apply_scoring lead).2.behavioral_score ∧ (apply_scoring lead).2.behavioral_score ≤ 100) ∧
    (0 ≤ (apply_scoring lead).2.landlord_score ∧ (apply_scoring lead).2.landlord_score ≤ 100) ∧
    ((apply_scoring lead).2.ai_tier = "HOT" ∨ (apply_scoring lead).2.ai_tier = "QUALIFIED" ∨
     (apply_scoring lead).2.ai_tier = "NURTURE" ∨ (apply_scoring lead).2.ai_tier = "REJECT") := by
  unfold apply_scoring scoreNormalized
  dsimp only
  split
  · exact ⟨⟨by norm_num [rejectScore], by norm_num [rejectScore]⟩,
      ⟨by norm_num [rejectScore], by norm_num [rejectScore]⟩,
      ⟨by norm_num [rejectScore], by norm_num [rejectScore]⟩,
      ⟨by norm_num [rejectScore], by norm_num [rejectScore]⟩,
      Or.inr (Or.inr (Or.inr rfl))⟩
  · exact ⟨clamp01_bounds _, clamp01_bounds _, clamp01_bounds _,
      landlordScoreOf_bounds _ _, tierOfTotal_mem _⟩

/-- C4: each reject reason is present in the output exactly when its own
hard-disqualification predicate holds (so evaluation order cannot affect
the resulting set), with the distance boundary exclusive at 90 and the
roof-age boundary inclusive at 15 (14 contributes +0 to property). -/
theorem C4_reject_reason_membership (lead : LeadInput) :
    ("Outside 90-minute radius" ∈ (apply_scoring lead).2.reject_reasons ↔
      ∃ d, lead.distance_minutes = some d ∧ d > 90) ∧
    ("Wood shake roof" ∈ (apply_scoring lead).2.reject_reasons ↔
      pyTruthy lead.roof_type = true ∧
      pyIn "wood" (pyLower (lead.roof_type.getD "")) = true ∧
      pyIn "shake" (pyLower (lead.roof_type.getD "")) = true) ∧
    ("Excessive shading" ∈ (apply_scoring lead).2.reject_reasons ↔
      map_shading_to_code lead.shading_level = some "heavy_shade") ∧
    ("Monthly bill under $150" ∈ (apply_scoring lead).2.reject_reasons ↔
      ∃ b, (normalize_monthly_bill lead).monthly_bill = some b ∧ b < 150) ∧
    ("HOA does not allow solar" ∈ (apply_scoring lead).2.reject_reasons ↔
      map_hoa_to_bool lead.hoa_allows_solar = some false) ∧
    ("Roof likely needs replacement within 5 years" ∈ (apply_scoring lead).2.reject_reasons ↔
      ∃ a, lead.roof_age_years = some a ∧ a ≥ 15) ∧
    ("Credit score below 650" ∈ (apply_scoring lead).2.reject_reasons ↔
      pyStartsWith (pyLower (map_credit_band lead.credit_band)) "under 650" = true) ∧
    ("Outside 90-minute radius" ∈
      (apply_scoring { distance_minutes := some 91 }).2.reject_reasons) ∧
    ("Outside 90-minute radius" ∉
      (apply_scoring { distance_minutes := some 90 }).2.reject_reasons) ∧
    ("Roof likely needs replacement within 5 years" ∈
      (apply_scoring { roof_age_years := some 15 }).2.reject_reasons) ∧
    ("Roof likely needs replacement within 5 years" ∉
      (apply_scoring { roof_age_years := some 14 }).2.reject_reasons) ∧
    roofAgeAdj (some 14) = 0 ∧
    (apply_scoring { roof_age_years := some 14 }).2.property_score = 50 := by
  refine ⟨?_, ?_, ?_, ?_, ?_, ?_, ?_, by decide, by decide, by decide, by decide,
    by decide, by decide⟩
  · rw [applyScoring_rr, mem_rr_iff]
    simp [distReject_iff, normalize_distance]
  · rw [applyScoring_rr, mem_rr_iff]
    simp [woodShakeReject_iff, normalize_roof_type]
  · rw [applyScoring_rr, mem_rr_iff]
    simp
  · rw [applyScoring_rr, mem_rr_iff]
    simp [lowBillReject_iff]
  · rw [applyScoring_rr, mem_rr_iff]
    simp
  · rw [applyScoring_rr, mem_rr_iff]
    simp [roofAgeReject_iff, normalize_roof_age]
  · rw [applyScoring_rr, mem_rr_iff]
    simp [creditReject]

/-- A successfully parsed raw bill string is written into an unset
`monthly_bill`. -/
theorem normalize_bill_of_parsed (lead : LeadInput) (s : String) (v : ℚ)
    (h1 : lead.monthly_bill = none) (h2 : lead.monthly_bill_raw = some s)
    (h3 : s ≠ "") (h4 : parsedBill s = some v) :
    (normalize_monthly_bill lead).monthly_bill = some v := by
  unfold normalize_monthly_bill
  rw [h1, h2]
  simp [pyTruthy, h3, h4]

theorem parsedBill_dollar_range : parsedBill "$200–$400" = some 300 := by
  have h : parsedBill "$200–$400" =
      some (((digitsVal "200".toList : ℚ) + (digitsVal "400".toList : ℚ)) / 2) := rfl
  rw [h, show digitsVal "200".toList = 200 from by decide,
    show digitsVal "400".toList = 400 from by decide]
  norm_num

/-- C2: scoring is total and no exception escapes: the exception-aware
embedding (in which `float()` raises `ValueError` and `parts[i]` raises
`IndexError`) always returns `ok` of the total embedding's result, and an
unparseable raw bill string leaves the record — bill included — unchanged. -/
theorem C2_total_no_exception (lead : LeadInput) :
    apply_scoringE lead = Except.ok (apply_scoring lead) ∧
    (∀ s, lead.monthly_bill = none → lead.monthly_bill_raw = some s →
      parsedBill s = none → (apply_scoring lead).1 = lead) := by
  constructor
  · unfold apply_scoringE apply_scoring
    rw [normalizeE_ok]
  · intro s h1 h2 h3
    rw [applyScoring_fst]
    unfold normalize_monthly_bill
    rw [h1, h2]
    simp [pyTruthy, h3]

/-- C2 witness at a concrete lead with an unparseable raw bill. -/
theorem C2_total_no_exception_witness :
    apply_scoringE { monthly_bill_raw := some "abc" } =
      Except.ok (apply_scoring { monthly_bill_raw := some "abc" }) ∧
    ({ monthly_bill_raw := some "abc" } : LeadInput).monthly_bill = none ∧
    ({ monthly_bill_raw := some "abc" } : LeadInput).monthly_bill_raw = some "abc" ∧
    parsedBill "abc" = none ∧
    (apply_scoring { monthly_bill_raw := some "abc" }).1 =
      { monthly_bill_raw := some "abc" } :=
  ⟨(C2_total_no_exception { monthly_bill_raw := some "abc" }).1,
   by decide, by decide, by decide,
   (C2_total_no_exception { monthly_bill_raw := some "abc" }).2 "abc"
     (by decide) (by decide) (by decide)⟩

/-- C5: bill normalization: an already-present numeric bill is
authoritative; a cleaned string containing a hyphen whose first two parts
parse yields their arithmetic mean; if either part fails the parse falls
through to the single-value parse; and the documented examples hold, with
failures leaving the bill unset. -/
theorem C5_bill_normalization :
    (∀ lead : LeadInput, lead.monthly_bill.isSome = true →
      normalize_monthly_bill lead = lead) ∧
    (∀ (s : String) (low high : ℚ), '-' ∈ cleanBill s →
      pyFloat? ⟨(splitChar '-' (cleanBill s)).getD 0 []⟩ = some low →
      pyFloat? ⟨(splitChar '-' (cleanBill s)).getD 1 []⟩ = some high →
      parsedBill s = some ((low + high) / 2)) ∧
    (∀ s : String, '-' ∈ cleanBill s →
      (pyFloat? ⟨(splitChar '-' (cleanBill s)).getD 0 []⟩ = none ∨
       pyFloat? ⟨(splitChar '-' (cleanBill s)).getD 1 []⟩ = none) →
      parsedBill s = pyFloat? ⟨cleanBill s⟩) ∧
    parsedBill "$200–$400" = some 300 ∧
    parsedBill "250" = some 250 ∧
    parsedBill "abc" = none ∧
    (normalize_monthly_bill { monthly_bill_raw := some "$200–$400" }).monthly_bill = some 300 ∧
    (normalize_monthly_bill { monthly_bill_raw := some "250" }).monthly_bill = some 250 ∧
    (normalize_monthly_bill { monthly_bill_raw := some "" }).monthly_bill = none ∧
    (normalize_monthly_bill ({} : LeadInput)).monthly_bill = none ∧
    (normalize_monthly_bill { monthly_bill_raw := some "abc" }).monthly_bill = none := by
  refine ⟨?_, ?_, ?_, parsedBill_dollar_range, by decide, by decide,
    normalize_bill_of_parsed _ "$200–$400" 300 rfl rfl (by decide) parsedBill_dollar_range,
    by decide, by decide, by decide, by decide⟩
  · intro lead h
    unfold normalize_monthly_bill
    rw [if_pos h]
  · intro s low high hc h0 h1
    unfold parsedBill billRange?
    rw [if_pos hc, h0, h1]
  · intro s hc hor
    unfold parsedBill billRange?
    rw [if_pos hc]
    cases h0 : pyFloat? ⟨(splitChar '-' (cleanBill s)).getD 0 []⟩ <;>
      cases h1 : pyFloat? ⟨(splitChar '-' (cleanBill s)).getD 1 []⟩ <;>
      simp_all

/-- C5 witness: authoritative numeric bill and a concrete range parse. -/
theorem C5_bill_normalization_witness :
    ({ monthly_bill := some 42, monthly_bill_raw := some "999" } : LeadInput).monthly_bill.isSome = true ∧
    normalize_monthly_bill { monthly_bill := some 42, monthly_bill_raw := some "999" } =
      { monthly_bill := some 42, monthly_bill_raw := some "999" } ∧
    ('-' ∈ cleanBill "100-300") ∧
    parsedBill "100-300" =
      some (((digitsVal "100".toList : ℚ) + (digitsVal "300".toList : ℚ)) / 2) :=
  ⟨by decide,
   C5_bill_normalization.1 { monthly_bill := some 42, monthly_bill_raw := some "999" }
     (by decide),
   by decide,
   C5_bill_normalization.2.1 "100-300" (digitsVal "100".toList : ℚ)
     (digitsVal "300".toList : ℚ) (by decide) rfl rfl⟩

/-- C6: on the non-rejected path the tier is the threshold mapping
(≥90 HOT, ≥75 QUALIFIED, ≥60 NURTURE, else REJECT) of the weighted sum
`0.4*property + 0.35*financial + 0.25*behavioral` plus a 15-point bonus
exactly when the landlord score is at least 75; in particular sub-scores
(80, 80, 80) with landlord below 75 give weighted total 80, QUALIFIED. -/
theorem C6_weighted_tier (lead : LeadInput) :
    ((apply_scoring lead).2.reject_reasons = [] →
      (apply_scoring lead).2.ai_tier =
        tierOfTotal (totalWeighted (apply_scoring lead).2.property_score
          (apply_scoring lead).2.financial_score
          (apply_scoring lead).2.behavioral_score
          (apply_scoring lead).2.landlord_score)) ∧
    (∀ p f b l : Int, l ≥ 75 →
      totalWeighted p f b l = (p : ℚ) * 0.4 + (f : ℚ) * 0.35 + (b : ℚ) * 0.25 + 15) ∧
    (∀ p f b l : Int, l < 75 →
      totalWeighted p f b l = (p : ℚ) * 0.4 + (f : ℚ) * 0.35 + (b : ℚ) * 0.25) ∧
    (∀ t : ℚ, 90 ≤ t → tierOfTotal t = "HOT") ∧
    (∀ t : ℚ, 75 ≤ t → t < 90 → tierOfTotal t = "QUALIFIED") ∧
    (∀ t : ℚ, 60 ≤ t → t < 75 → tierOfTotal t = "NURTURE") ∧
    (∀ t : ℚ, t < 60 → tierOfTotal t = "REJECT") ∧
    (∀ l : Int, l < 75 → totalWeighted 80 80 80 l = 80) ∧
    tierOfTotal 80 = "QUALIFIED" := by
  refine ⟨?_, ?_, ?_, ?_, ?_, ?_, ?_, ?_, ?_⟩
  · unfold apply_scoring scoreNormalized
    dsimp only
    split
    · rename_i hne
      intro h
      exact absurd h hne
    · intro _
      rfl
  · intro p f b l h
    unfold totalWeighted
    rw [if_pos h]
  · intro p f b l h
    unfold totalWeighted
    rw [if_neg (by omega : ¬ l ≥ 75)]
    ring
  · intro t h
    unfold tierOfTotal
    rw [if_pos h]
  · intro t h1 h2
    unfold tierOfTotal
    split_ifs <;> first | rfl | linarith
  · intro t h1 h2
    unfold tierOfTotal
    split_ifs <;> first | rfl | linarith
  · intro t h
    unfold tierOfTotal
    split_ifs <;> first | rfl | linarith
  · intro l h
    unfold totalWeighted
    rw [if_neg (by omega : ¬ l ≥ 75)]
    norm_num
  · unfold tierOfTotal
    rw [if_neg (by norm_num), if_pos (by norm_num)]

/-- C6 witness: the default lead takes the graduated path, and the example
weighted total evaluates at landlord score 0. -/
theorem C6_weighted_tier_witness :
    (apply_scoring {}).2.reject_reasons = [] ∧
    (apply_scoring {}).2.ai_tier =
      tierOfTotal (totalWeighted (apply_scoring {}).2.property_score
        (apply_scoring {}).2.financial_score (apply_scoring {}).2.behavioral_score
        (apply_scoring {}).2.landlord_score) ∧
    (0 : Int) < 75 ∧ totalWeighted 80 80 80 0 = 80 :=
  ⟨by decide, (C6_weighted_tier {}).1 (by decide),
   by decide, (C6_weighted_tier {}).2.2.2.2.2.2.2.1 0 (by decide)⟩

/-- C7 counterexample: scoring is not free of effects on the input record —
`normalize_monthly_bill` writes the parsed raw bill into the record's
numeric `monthly_bill` field, so that field differs after the call. -/
theorem C7_counterexample :
    (apply_scoring { monthly_bill_raw := some "250" }).1.monthly_bill ≠
      ({ monthly_bill_raw := some "250" } : LeadInput).monthly_bill := by
  decide

/-- C7 amended: scoring modifies at most the numeric `monthly_bill` field of
the input record: every other field is unchanged after the call, and
`monthly_bill` itself is unchanged whenever it was already set. -/
theorem C7_amended_frame (lead : LeadInput) :
    ((apply_scoring lead).1.name = lead.name ∧
     (apply_scoring lead).1.email = lead.email ∧
     (apply_scoring lead).1.phone = lead.phone ∧
     (apply_scoring lead).1.address = lead.address ∧
     (apply_scoring lead).1.city = lead.city ∧
     (apply_scoring lead).1.state = lead.state ∧
     (apply_scoring lead).1.zip = lead.zip ∧
     (apply_scoring lead).1.source = lead.source ∧
     (apply_scoring lead).1.property_type = lead.property_type ∧
     (apply_scoring lead).1.is_landlord = lead.is_landlord ∧
     (apply_scoring lead).1.property_count = lead.property_count ∧
     (apply_scoring lead).1.roof_type = lead.roof_type ∧
     (apply_scoring lead).1.roof_age_years = lead.roof_age_years ∧
     (apply_scoring lead).1.shading_level = lead.shading_level ∧
     (apply_scoring lead).1.hoa_allows_solar = lead.hoa_allows_solar ∧
     (apply_scoring lead).1.distance_minutes = lead.distance_minutes ∧
     (apply_scoring lead).1.monthly_bill_raw = lead.monthly_bill_raw ∧
     (apply_scoring lead).1.true_up_band = lead.true_up_band ∧
     (apply_scoring lead).1.credit_band = lead.credit_band ∧
     (apply_scoring lead).1.motivation = lead.motivation ∧
     (apply_scoring lead).1.decision_style = lead.decision_style) ∧
    (lead.monthly_bill.isSome = true →
      (apply_scoring lead).1.monthly_bill = lead.monthly_bill) := by
  constructor
  · rw [applyScoring_fst, normalize_eq_update]
    exact ⟨rfl, rfl, rfl, rfl, rfl, rfl, rfl, rfl, rfl, rfl, rfl, rfl, rfl, rfl,
      rfl, rfl, rfl, rfl, rfl, rfl, rfl⟩
  · intro h
    rw [applyScoring_fst]
    exact normalize_bill_of_isSome lead h

/-- C7 amended witness at a lead whose numeric bill is already set. -/
theorem C7_amended_frame_witness :
    ({ monthly_bill := some 10 } : LeadInput).monthly_bill.isSome = true ∧
    (apply_scoring { monthly_bill := some 10 }).1.monthly_bill =
      ({ monthly_bill := some 10 } : LeadInput).monthly_bill :=
  ⟨by decide, (C7_amended_frame { monthly_bill := some 10 }).2 (by decide)⟩

/-- C8: with credit band, true-up band, decision style and motivation all
absent, the literal defaults "Unknown" / "Other/Unknown" match no scoring
keyword: no credit rejection, no true-up or credit adjustment, no
decision-style adjustment, buyer type stays "Unknown", no pain points. -/
theorem C8_unknown_defaults (lead : LeadInput)
    (hcb : lead.credit_band = none) (htub : lead.true_up_band = none)
    (hds : lead.decision_style = none) (hmot : lead.motivation = none) :
    map_credit_band lead.credit_band = "Unknown" ∧
    map_true_up_band lead.true_up_band = "Unknown" ∧
    normalize_decision_style lead.decision_style = "Unknown" ∧
    normalize_motivation lead.motivation = "Other/Unknown" ∧
    "Credit score below 650" ∉ (apply_scoring lead).2.reject_reasons ∧
    tubAdj (pyLower (map_true_up_band lead.true_up_band)) = 0 ∧
    cbAdj (map_credit_band lead.credit_band) = 0 ∧
    styleAdjBuyer (pyLower (normalize_decision_style lead.decision_style)) = (0, "Unknown") ∧
    painPointsOf (pyLower (normalize_motivation lead.motivation)) = [] ∧
    (apply_scoring lead).2.buyer_type = "Unknown" ∧
    (apply_scoring lead).2.pain_points = [] ∧
    ((apply_scoring lead).2.reject_reasons = [] →
      (apply_scoring lead).2.behavioral_score = 50 ∧
      (apply_scoring lead).2.financial_score =
        clamp01 (40 + billAdj (normalize_monthly_bill lead).monthly_bill)) := by
  refine ⟨by rw [hcb]; rfl, by rw [htub]; rfl, by rw [hds]; rfl, by rw [hmot]; rfl, ?_,
    by rw [htub]; decide, by rw [hcb]; decide, by rw [hds]; decide,
    by rw [hmot]; decide, ?_, ?_, ?_⟩
  · rw [applyScoring_rr, mem_rr_iff, hcb]
    simp [show creditReject (map_credit_band none) = false from by decide]
  · rcases applyScoring_snd_cases lead with ⟨_, heq⟩ | ⟨_, heq⟩ <;> rw [heq]
    · rfl
    · show buyerTypeOf (normalize_monthly_bill lead).decision_style = "Unknown"
      rw [normalize_decision, hds]
      decide
  · rcases applyScoring_snd_cases lead with ⟨_, heq⟩ | ⟨_, heq⟩ <;> rw [heq]
    · rfl
    · show painPointsOf (pyLower (normalize_motivation
        (normalize_monthly_bill lead).motivation)) = []
      rw [normalize_motivation_field, hmot]
      decide
  · intro h
    rcases applyScoring_snd_cases lead with ⟨hne, _⟩ | ⟨_, heq⟩
    · exact absurd h hne
    · rw [heq]
      constructor
      · show behavioralScoreOf (normalize_monthly_bill lead).decision_style = 50
        rw [normalize_decision, hds]
        decide
      · show financialScoreOf (normalize_monthly_bill lead).monthly_bill
          (pyLower (map_true_up_band (normalize_monthly_bill lead).true_up_band))
          (map_credit_band (normalize_monthly_bill lead).credit_band) =
          clamp01 (40 + billAdj (normalize_monthly_bill lead).monthly_bill)
        rw [normalize_true_up, normalize_credit_band, htub, hcb]
        unfold financialScoreOf
        rw [show tubAdj (pyLower (map_true_up_band none)) = 0 from by decide,
          show cbAdj (map_credit_band none) = 0 from by decide, add_zero, add_zero]

/-- C8 witness at the all-absent lead. -/
theorem C8_unknown_defaults_witness :
    ({} : LeadInput).credit_band = none ∧ ({} : LeadInput).true_up_band = none ∧
    ({} : LeadInput).decision_style = none ∧ ({} : LeadInput).motivation = none ∧
    (apply_scoring {}).2.buyer_type = "Unknown" ∧
    (apply_scoring {}).2.pain_points = [] ∧
    (apply_scoring {}).2.reject_reasons = [] ∧
    (apply_scoring {}).2.behavioral_score = 50 :=
  ⟨rfl, rfl, rfl, rfl,
   (C8_unknown_defaults {} rfl rfl rfl rfl).2.2.2.2.2.2.2.2.2.1,
   (C8_unknown_defaults {} rfl rfl rfl rfl).2.2.2.2.2.2.2.2.2.2.1,
   by decide,
   ((C8_unknown_defaults {} rfl rfl rfl rfl).2.2.2.2.2.2.2.2.2.2.2 (by decide)).1⟩

/-- C9: a lead that is already normalized (numeric bill set whenever a raw
bill string is present) is left unchanged by scoring, so applying the
engine twice yields identical output both times. -/
theorem C9_idempotent (lead : LeadInput)
    (h : ∀ s, lead.monthly_bill_raw = some s → lead.monthly_bill.isSome = true) :
    (apply_scoring lead).1 = lead ∧
    apply_scoring ((apply_scoring lead).1) = apply_scoring lead := by
  have hn := normalize_id_of_normalized lead h
  refine ⟨?_, ?_⟩ <;> rw [applyScoring_fst, hn]

/-- C9 witness at a concrete normalized lead. -/
theorem C9_idempotent_witness :
    (∀ s, ({ monthly_bill := some 250, monthly_bill_raw := some "250" } : LeadInput).monthly_bill_raw
        = some s →
      ({ monthly_bill := some 250, monthly_bill_raw := some "250" } : LeadInput).monthly_bill.isSome
        = true) ∧
    (apply_scoring { monthly_bill := some 250, monthly_bill_raw := some "250" }).1 =
      { monthly_bill := some 250, monthly_bill_raw := some "250" } ∧
    apply_scoring ((apply_scoring { monthly_bill := some 250, monthly_bill_raw := some "250" }).1) =
      apply_scoring { monthly_bill := some 250, monthly_bill_raw := some "250" } :=
  ⟨fun _ _ => by decide,
   (C9_idempotent _ (fun _ _ => by decide)).1,
   (C9_idempotent _ (fun _ _ => by decide)).2⟩

/-- C10 counterexample: with two or more hyphens in the cleaned bill string
the estimate is not always the mean of the first two segments, and segments
after the second can change the result: "-1e-3" and "-1e-4" share their
first two hyphen-separated segments ("" and "1e") yet parse — through the
single-value `float` fallthrough with scientific notation — to different
estimates. -/
theorem C10_counterexample :
    (cleanBill "-1e-3").count '-' = 2 ∧
    (cleanBill "-1e-4").count '-' = 2 ∧
    (splitChar '-' (cleanBill "-1e-3")).take 2 = (splitChar '-' (cleanBill "-1e-4")).take 2 ∧
    (normalize_monthly_bill { monthly_bill_raw := some "-1e-3" }).monthly_bill ≠
      (normalize_monthly_bill { monthly_bill_raw := some "-1e-4" }).monthly_bill := by
  refine ⟨by decide, by decide, by decide, ?_⟩
  have h3 : (normalize_monthly_bill { monthly_bill_raw := some "-1e-3" }).monthly_bill =
      some (-((digitsVal "1".toList : ℚ) / (10 : ℚ) ^ digitsVal "3".toList)) :=
    normalize_bill_of_parsed _ "-1e-3" _ rfl rfl (by decide) rfl
  have h4 : (normalize_monthly_bill { monthly_bill_raw := some "-1e-4" }).monthly_bill =
      some (-((digitsVal "1".toList : ℚ) / (10 : ℚ) ^ digitsVal "4".toList)) :=
    normalize_bill_of_parsed _ "-1e-4" _ rfl rfl (by decide) rfl
  rw [h3, h4, show digitsVal "1".toList = 1 from by decide,
    show digitsVal "3".toList = 3 from by decide,
    show digitsVal "4".toList = 4 from by decide]
  simp only [ne_eq, Option.some.injEq]
  norm_num

/-- C10 amended: when the cleaned bill string contains two or more hyphens
and its first two hyphen-separated segments both parse as floats, the
estimate is the mean of those first two segments, so later segments have no
effect; when either of the first two segments fails to parse, the whole
cleaned string goes through the single-value parse, where text after the
second hyphen can still influence the result (scientific notation). -/
theorem C10_amended_first_two_segments (lead : LeadInput) (s : String) (low high : ℚ)
    (hbill : lead.monthly_bill = none) (hraw : lead.monthly_bill_raw = some s)
    (hs : s ≠ "") (h2 : 2 ≤ (cleanBill s).count '-')
    (h0 : pyFloat? ⟨(splitChar '-' (cleanBill s)).getD 0 []⟩ = some low)
    (h1 : pyFloat? ⟨(splitChar '-' (cleanBill s)).getD 1 []⟩ = some high) :
    (normalize_monthly_bill lead).monthly_bill = some ((low + high) / 2) := by
  have hmem : '-' ∈ cleanBill s := List.count_pos_iff.mp (by omega)
  have hp : parsedBill s = some ((low + high) / 2) := by
    unfold parsedBill billRange?
    rw [if_pos hmem, h0, h1]
  exact normalize_bill_of_parsed lead s _ hbill hraw hs hp

/-- C10 amended witness: "100-200-300" parses to the mean of 100 and 200. -/
theorem C10_amended_first_two_segments_witness :
    ({ monthly_bill_raw := some "100-200-300" } : LeadInput).monthly_bill = none ∧
    2 ≤ (cleanBill "100-200-300").count '-' ∧
    (normalize_monthly_bill { monthly_bill_raw := some "100-200-300" }).monthly_bill =
      some (((digitsVal "100".toList : ℚ) + (digitsVal "200".toList : ℚ)) / 2) :=
  ⟨rfl, by decide,
   C10_amended_first_two_segments _ "100-200-300"
     (digitsVal "100".toList : ℚ) (digitsVal "200".toList : ℚ)
     rfl rfl (by decide) (by decide) rfl rfl⟩
